import Mathlib

/-!
A shallow embedding of `wu_venv/ssEEG/denoising_MNE/denoising_h.py`.

Samples, sampling rates, frequencies and times are modelled as rationals
(the Python floats); channel data is a list of channels, each a list of
samples.  Calls into the external libraries (pandas, MNE, matplotlib) are
modelled by explicit Lean functions whose doc comments state which
documented external behavior they capture; file-system and plotting side
effects are modelled by explicit outcome parameters and returned message
strings, and an exception propagating out of a Python function is modelled
by the function returning an `Except.error`.
-/

/-- Error taxonomy of the pipeline.  In the Python source every failure is a
`ValueError` (or a caught generic `Exception`); the constructors mirror the
distinct failure sites: the ingestion sample-count check (which carries the
expected and the actual count, exactly as the message built on line 23 of
`denoising_h.py` does), an invalid filter parameter rejected relative to the
Nyquist limit, and an invalid crop window. -/
inductive PipelineError where
  | malformedInput (expected actual : Nat)
  | paramError (msg : String)
  | cropError (msg : String)
deriving DecidableEq

/-- The signal container: the model of an `mne.io.RawArray`, holding the
channel data (a list of channels, each a list of samples) and the sampling
rate. -/
structure Raw where
  data : List (List ℚ)
  sfreq : ℚ
deriving DecidableEq

/-- Model of the container construction `mne.io.RawArray(data, info)`:
wraps the channel data and the sampling rate recorded in the info object
into a container. -/
def mne_raw_array (data : List (List ℚ)) (sfreq : ℚ) : Raw :=
  { data := data, sfreq := sfreq }

/-- Number of samples per channel (MNE's `raw.n_times`): the length of the
first channel (the containers of this pipeline are rectangular, numpy
arrays being rectangular). -/
def nSamples (raw : Raw) : Nat := (raw.data.headD []).length

/-- Model of `raw.times[-1]`, the last time point: MNE sets
`times = arange(n_times) / sfreq`, so the last time point is
`(n_times - 1) / sfreq`. -/
def lastTime (raw : Raw) : ℚ := ((nSamples raw : ℚ) - 1) / raw.sfreq

/-- The per-channel sample counts of a container; the conditioning stages
of the spec must preserve this shape. -/
def channelLengths (raw : Raw) : List Nat := raw.data.map List.length

/-- Model of `mne.filter.detrend(data, order=1)` on one channel: subtracts
the least-squares line fitted over the time indices `0, 1, ...`.  When the
fit is degenerate (fewer than two samples, where the line interpolates the
data exactly) the residual is zero.  Shape-preserving by construction, as
the external implementation is. -/
def detrendChannel (ch : List ℚ) : List ℚ :=
  let n : ℚ := ch.length
  let st : ℚ := ((List.range ch.length).map (fun i => (i : ℚ))).sum
  let stt : ℚ := ((List.range ch.length).map (fun i => (i : ℚ) * (i : ℚ))).sum
  let sy : ℚ := ch.sum
  let sty : ℚ := (ch.enum.map (fun p => (p.1 : ℚ) * p.2)).sum
  let den : ℚ := n * stt - st * st
  if den = 0 then ch.map (fun _ => 0)
  else
    let a := (n * sty - st * sy) / den
    let b := (sy - a * st) / n
    ch.enum.map (fun p => p.2 - (a * (p.1 : ℚ) + b))

/-- Model of the numerical action of the external IIR/FIR filters on one
sample.  The spec treats the filters' frequency response as an external
black box whose only structural obligation is one output sample per input
sample; only that contract is modelled here. -/
def filteredSample (y : ℚ) : ℚ := y

/-- Model of MNE's `raw.notch_filter(freqs=..., picks='eeg')`: MNE
validates every target frequency against the Nyquist limit `sfreq / 2` and
raises a `ValueError` for a frequency at or above it before touching the
data; otherwise it filters in place, preserving sample count and sampling
rate. -/
def mne_notch_filter (raw : Raw) (freqs : List ℚ) : Except PipelineError Raw :=
  if freqs.any (fun f => decide (raw.sfreq / 2 ≤ f)) then
    Except.error (PipelineError.paramError "notch frequency at or above the Nyquist limit")
  else
    Except.ok { raw with data := raw.data.map (fun ch => ch.map filteredSample) }

/-- Model of MNE's `raw.filter(l_freq=..., h_freq=..., picks='eeg')` for a
band-pass configuration: MNE validates both edges against the Nyquist limit
`sfreq / 2` and raises a `ValueError` for an edge at or above it before
touching the data; otherwise it filters in place, preserving sample count
and sampling rate. -/
def mne_filter (raw : Raw) (l_freq h_freq : ℚ) : Except PipelineError Raw :=
  if decide (raw.sfreq / 2 ≤ l_freq) || decide (raw.sfreq / 2 ≤ h_freq) then
    Except.error (PipelineError.paramError "band-pass edge at or above the Nyquist limit")
  else
    Except.ok { raw with data := raw.data.map (fun ch => ch.map filteredSample) }

/-- Model of one channel of MNE's resampling: the channel length is scaled
by the rate factor, and each output sample is drawn from the corresponding
input position (the external interpolation kernel is a black box; only the
length contract is modelled). -/
def resampleChannel (ch : List ℚ) (factor : ℚ) : List ℚ :=
  let newLen : Nat := (((ch.length : ℚ) * factor).floor).toNat
  (List.range newLen).map (fun j => ch.getD (((j : ℚ) / factor).floor).toNat 0)

/-- Model of MNE's `raw.resample(new_sfreq, npad="auto")`: sets the
container rate to the target and scales every channel by the factor
`new_sfreq / sfreq`. -/
def mne_resample (raw : Raw) (new_sfreq : ℚ) : Raw :=
  { data := raw.data.map (fun ch => resampleChannel ch (new_sfreq / raw.sfreq)),
    sfreq := new_sfreq }

/-- Model of MNE's `raw.copy().crop(tmin=..., tmax=...)`: MNE raises a
`ValueError` when `tmax < tmin`, when `tmin` is negative, or when `tmax`
exceeds the last time point; otherwise it keeps the samples whose time
index falls inside the window (the sub-sample rounding of the external
implementation is not load-bearing for the claims and is modelled by exact
rational comparison of `index` against `t * sfreq`).  The `copy` is
modelled by value semantics: the input container is untouched. -/
def mne_crop (raw : Raw) (tmin tmax : ℚ) : Except PipelineError Raw :=
  if tmax < tmin then
    Except.error (PipelineError.cropError "tmax must be greater than or equal to tmin")
  else if tmin < 0 then
    Except.error (PipelineError.cropError "tmin must not be negative")
  else if lastTime raw < tmax then
    Except.error (PipelineError.cropError "tmax exceeds the recording duration")
  else
    Except.ok { raw with
      data := raw.data.map (fun ch =>
        (ch.enum.filter (fun p =>
            decide (tmin * raw.sfreq ≤ (p.1 : ℚ)) && decide ((p.1 : ℚ) ≤ tmax * raw.sfreq))).map
          (fun p => p.2)) }

namespace DataPreprocess

/-- The hard-coded expected sample count of the recording protocol
(line 20 of `denoising_h.py`). -/
def expected_samples : Nat := 1400000

/-- Embedding of `DataPreprocess.remove_missing`, from the point where the
CSV has been read (reading the file, skipping the 11 header rows and
trimming the column names is external file parsing): the extracted `Volt`
column arrives as a list of optional samples, `none` standing for a missing
value.  Rows with a missing value are dropped (`dropna`), then the length
of the surviving sample list must equal `expected_samples`, otherwise a
`ValueError` carrying the expected and the actual count is raised. -/
def remove_missing (volt : List (Option ℚ)) : Except PipelineError (List ℚ) :=
  let eeg_data := volt.filterMap id
  if eeg_data.length ≠ expected_samples then
    Except.error (PipelineError.malformedInput expected_samples eeg_data.length)
  else
    Except.ok eeg_data

/-- The sampling rate fixed inside `convert_to_fif` (line 29 of
`denoising_h.py`). -/
def convert_sfreq : ℚ := 5000

/-- Embedding of `DataPreprocess.convert_to_fif`: wraps the samples into a
single-channel container at `convert_sfreq` (the `reshape(1,-1)` plus
`mne.io.RawArray` construction) and saves it to `eeg_data_raw.fif`.  The
save is an external file-system effect, modelled by the `saveOutcome`
parameter.  The whole body sits in a `try/except Exception` block: on
success the function returns the container and a message, and on ANY
exception it returns the string "Error occurred: ..." instead — the
exception is swallowed, never re-raised, so the outer `Except` (the model
of an exception propagating to the caller) is never an error. -/
def convert_to_fif (eeg_data : List ℚ) (saveOutcome : Except String Unit) :
    Except String ((Raw × String) ⊕ String) :=
  match saveOutcome with
  | Except.ok _ =>
      Except.ok (Sum.inl (mne_raw_array [eeg_data] convert_sfreq,
        "CSV converted to FIF and saved at eeg_data_raw.fif"))
  | Except.error e => Except.ok (Sum.inr ("Error occurred: " ++ e))

end DataPreprocess

namespace Filter

/-- Embedding of `Filter.apply_downsampling`: delegates directly to the
external resample at the requested target rate; no validation of the target
rate is performed in the repository. -/
def apply_downsampling (raw : Raw) (new_sfreq : ℚ) : Raw :=
  mne_resample raw new_sfreq

/-- The Python default argument `new_sfreq=5000` of `apply_downsampling`
(line 55 of `denoising_h.py`). -/
def downsampling_default : ℚ := 5000

/-- Invocation of `apply_downsampling` with its default argument. -/
def apply_downsampling_default (raw : Raw) : Raw :=
  apply_downsampling raw downsampling_default

/-- Embedding of `Filter.apply_detrend`: takes the data out of the
container, applies the external order-1 detrend, and writes it back. -/
def apply_detrend (raw : Raw) : Raw :=
  { raw with data := raw.data.map detrendChannel }

/-- Embedding of `Filter.apply_bandpass_filter`: delegates to `raw.filter`
with the fixed edges `l_freq=0.5`, `h_freq=30`. -/
def apply_bandpass_filter (raw : Raw) : Except PipelineError Raw :=
  mne_filter raw (1 / 2) 30

/-- Embedding of `Filter.apply_notch_filter`: delegates to
`raw.notch_filter` with the fixed target frequencies 50 and 60 Hz. -/
def apply_notch_filter (raw : Raw) : Except PipelineError Raw :=
  mne_notch_filter raw [50, 60]

/-- Embedding of `Filter.apply_all_filters`: detrend, then notch, then
band-pass; a stage that raises skips the remaining stages (exception
propagation, the bind of the `Except` monad). -/
def apply_all_filters (raw : Raw) : Except PipelineError Raw := do
  let raw := apply_detrend raw
  let raw ← apply_notch_filter raw
  let raw ← apply_bandpass_filter raw
  return raw

/-- Embedding of `Filter.average_signal`: `np.mean(data, axis=0)` — one
output value per time step, the sum of the channel values at that step
divided by the number of channels. -/
def average_signal (raw : Raw) : List ℚ :=
  (List.range (nSamples raw)).map (fun j =>
    ((raw.data.map (fun ch => ch.getD j 0)).sum) / (raw.data.length : ℚ))

end Filter

namespace Plot

/-- Embedding of `Plot.plot_cropped_event_segment`: clamps the requested
window exactly as lines 130 and 131 of `denoising_h.py` do
(`start_time = max(0, start_time)`, `end_time = min(raw.times[-1],
end_time)`), then crops a copy of the container to that window and plots
the cropped view.  The rendering and the PNG save are external side
effects; the cropped container — the data the plot shows — is returned as
the model of the operation's outcome, and a crop failure propagates. -/
def plot_cropped_event_segment (raw : Raw) (event_name : String)
    (start_time end_time : ℚ) : Except PipelineError Raw :=
  let s := max 0 start_time
  let e := min (lastTime raw) end_time
  mne_crop raw s e

end Plot

namespace FFT

/-- Embedding of `FFT.compute_tfr_multitaper`: the epoching, the multitaper
transform, the averaging and the plotting are external computations,
modelled by the `analysisOutcome` parameter (`Except.error e` stands for
any exception with message `e` raised inside the `try` block after the
opening print).  The whole body sits in `try/except Exception`: the
function prints the opening line, then either the completion line or the
warning line "An error occurred while performing TFR analysis: ...", and
returns normally in both cases — the outer `Except` (the model of an
exception propagating to the caller) is never an error.  The returned list
models the printed lines. -/
def compute_tfr_multitaper (raw : Raw) (analysisOutcome : Except String Unit) :
    Except String (List String) :=
  match raw, analysisOutcome with
  | _, Except.ok _ =>
      Except.ok ["Performing Time-Frequency Analysis using Multitaper method...",
        "TFR analysis and averaged plotting completed."]
  | _, Except.error e =>
      Except.ok ["Performing Time-Frequency Analysis using Multitaper method...",
        "An error occurred while performing TFR analysis: " ++ e]

end FFT

/-! ## Helper lemmas -/

/-- Reading a list back off by position reproduces the list. -/
theorem range_map_getD (ch : List ℚ) :
    (List.range ch.length).map (fun j => ch.getD j 0) = ch := by
  induction ch with
  | nil => rfl
  | cons a t ih =>
      simp only [List.length_cons, List.range_succ_eq_map, List.map_cons, List.map_map,
        List.getD_cons_zero]
      have h2 : ((fun j => (a :: t).getD j 0) ∘ Nat.succ) = (fun j => t.getD j 0) := by
        funext j
        simp [Function.comp, List.getD_cons_succ]
      rw [h2, ih]

/-- Positional read of a mapped range below the bound. -/
theorem getD_range_map (f : Nat → ℚ) (n j : Nat) (h : j < n) :
    ((List.range n).map f).getD j 0 = f j := by
  rw [List.getD_eq_getElem?_getD, List.getElem?_map, List.getElem?_range h]
  rfl

/-- Arithmetic fact used to discharge a witness hypothesis. -/
theorem half_of_50_le_60 : (50 : ℚ) / 2 ≤ 60 := by norm_num

/-- Arithmetic fact used to discharge a witness hypothesis. -/
theorem half_of_50_le_30 : (50 : ℚ) / 2 ≤ 30 := by norm_num

/-! ## The claims -/

/-- Claim C1: ingestion returns exactly the cleaned voltage column when its
length (after dropping missing values) equals the expected sample count
1400000, and for any other length it fails with the malformed-input error
carrying both the expected and the actual count. -/
theorem claim1_remove_missing (volt : List (Option ℚ)) :
    DataPreprocess.remove_missing volt =
      (if (volt.filterMap id).length = DataPreprocess.expected_samples then
        Except.ok (volt.filterMap id)
      else
        Except.error (PipelineError.malformedInput DataPreprocess.expected_samples
          (volt.filterMap id).length)) := by
  by_cases h : (volt.filterMap id).length = DataPreprocess.expected_samples <;>
    simp [DataPreprocess.remove_missing, h]

/-- Claim C2: the apply-all operation is exactly the composition
band-pass after notch after detrend in the exception monad: the container
is detrended, the result goes through the notch stage, and a successful
notch result goes through the band-pass stage. -/
theorem claim2_apply_all_filters_order (raw : Raw) :
    Filter.apply_all_filters raw =
      (Filter.apply_notch_filter (Filter.apply_detrend raw)).bind
        Filter.apply_bandpass_filter := by
  simp only [Filter.apply_all_filters]
  cases h : Filter.apply_notch_filter (Filter.apply_detrend raw) with
  | error e => rfl
  | ok r =>
      show (Filter.apply_bandpass_filter r).bind pure = Filter.apply_bandpass_filter r
      cases Filter.apply_bandpass_filter r <;> rfl

/-- Claim C3: on a container whose rate makes the fixed parameters invalid,
the notch stage (a target frequency, 60 Hz, at or above the Nyquist limit)
and the band-pass stage (the upper edge, 30 Hz, at or above the Nyquist
limit) fail with a parameter error rather than producing a filtered
container; in this pure embedding an error result carries no container, so
the input container is left untouched.  (The spec's remaining trigger, a
band-pass low edge at or above the high edge, cannot arise here: the edges
are the fixed constants 0.5 and 30.) -/
theorem claim3_param_errors (raw : Raw) :
    (raw.sfreq / 2 ≤ 60 →
      Filter.apply_notch_filter raw =
        Except.error (PipelineError.paramError
          "notch frequency at or above the Nyquist limit")) ∧
    (raw.sfreq / 2 ≤ 30 →
      Filter.apply_bandpass_filter raw =
        Except.error (PipelineError.paramError
          "band-pass edge at or above the Nyquist limit")) := by
  constructor
  · intro h
    simp [Filter.apply_notch_filter, mne_notch_filter, h]
  · intro h
    simp [Filter.apply_bandpass_filter, mne_filter, h]

/-- Witness for claim C3: a container sampled at 50 Hz (Nyquist 25 Hz)
satisfies both hypotheses, and both stages reject it. -/
theorem claim3_param_errors_witness :
    ((Raw.mk [[1, 2]] 50).sfreq / 2 ≤ 60 ∧
      Filter.apply_notch_filter (Raw.mk [[1, 2]] 50) =
        Except.error (PipelineError.paramError
          "notch frequency at or above the Nyquist limit")) ∧
    ((Raw.mk [[1, 2]] 50).sfreq / 2 ≤ 30 ∧
      Filter.apply_bandpass_filter (Raw.mk [[1, 2]] 50) =
        Except.error (PipelineError.paramError
          "band-pass edge at or above the Nyquist limit")) :=
  ⟨⟨half_of_50_le_60, (claim3_param_errors (Raw.mk [[1, 2]] 50)).1 half_of_50_le_60⟩,
   ⟨half_of_50_le_30, (claim3_param_errors (Raw.mk [[1, 2]] 50)).2 half_of_50_le_30⟩⟩

/-- Counterexample to claim C4: a failing save inside `convert_to_fif`
(here the external save raising with message "disk full") does NOT
propagate as an error to the caller: the broad `except Exception` of lines
40 and 41 swallows it, and the function returns normally with the string
"Error occurred: disk full" in place of the container. -/
theorem claim4_counterexample :
    DataPreprocess.convert_to_fif [0] (Except.error "disk full") =
      Except.ok (Sum.inr "Error occurred: disk full") := rfl

/-- Claim C4 as amended: every persistence failure while writing the
intermediate artifact is caught locally by the `try/except Exception` block
of `convert_to_fif` and turned into the returned message string
"Error occurred: ..."; no exception propagates to the caller, so the
pipeline is not aborted by the conversion step. -/
theorem claim4_save_error_swallowed (eeg_data : List ℚ) (e : String) :
    DataPreprocess.convert_to_fif eeg_data (Except.error e) =
      Except.ok (Sum.inr ("Error occurred: " ++ e)) := rfl

/-- Claim C5: for every input container, whatever the outcome of the
delegated time-frequency computation, `compute_tfr_multitaper` returns
normally (the outer result is an `ok`, never a propagated exception), and
on a failure with message `e` the printed lines end with the warning line
reporting `e`. -/
theorem claim5_tfr_never_propagates (raw : Raw)
    (analysisOutcome : Except String Unit) :
    (∃ msgs, FFT.compute_tfr_multitaper raw analysisOutcome = Except.ok msgs) ∧
    (∀ e, analysisOutcome = Except.error e →
      FFT.compute_tfr_multitaper raw analysisOutcome =
        Except.ok ["Performing Time-Frequency Analysis using Multitaper method...",
          "An error occurred while performing TFR analysis: " ++ e]) := by
  cases analysisOutcome with
  | ok u => exact ⟨⟨_, rfl⟩, by intro e h; cases h⟩
  | error e =>
      refine ⟨⟨_, rfl⟩, ?_⟩
      intro e' h
      cases h
      rfl

/-- Witness for claim C5: a concrete container and a concrete failure
("boom") of the delegated computation give a normal return carrying the
warning line. -/
theorem claim5_witness :
    (∃ msgs, FFT.compute_tfr_multitaper (Raw.mk [[0]] 5000)
        (Except.error "boom") = Except.ok msgs) ∧
    FFT.compute_tfr_multitaper (Raw.mk [[0]] 5000) (Except.error "boom") =
      Except.ok ["Performing Time-Frequency Analysis using Multitaper method...",
        "An error occurred while performing TFR analysis: boom"] :=
  ⟨(claim5_tfr_never_propagates (Raw.mk [[0]] 5000) (Except.error "boom")).1,
   (claim5_tfr_never_propagates (Raw.mk [[0]] 5000) (Except.error "boom")).2 "boom" rfl⟩

/-- Arithmetic fact used to discharge a witness hypothesis: for the
5-sample, 1 Hz demonstration container (last time point 4 s) the window
requested as -1 s..100 s clamps to a non-empty window. -/
theorem claim6_window_nonempty :
    max (0 : ℚ) (-1) ≤ min (lastTime (Raw.mk [[0, 0, 0, 0, 0]] 1)) 100 := by
  norm_num [lastTime, nSamples, max_def, min_def]

/-- Counterexample to claim C6: on a 5-sample container at 1 Hz (last time
point 4 s), requesting the window 10 s..20 s — both bounds beyond the
recording — clamps only one-sidedly to (10, 4): the start is NOT lowered to
the duration, the clamped start exceeds the clamped end, and the crop
raises instead of never failing. -/
theorem claim6_counterexample :
    Plot.plot_cropped_event_segment (Raw.mk [[0, 0, 0, 0, 0]] 1) "Sound On" 10 20 =
      Except.error (PipelineError.cropError "tmax must be greater than or equal to tmin") := by
  have hl : lastTime (Raw.mk [[0, 0, 0, 0, 0]] 1) = 4 := by
    norm_num [lastTime, nSamples]
  have hmax : max (0 : ℚ) 10 = 10 := by norm_num [max_def]
  have hmin : min (4 : ℚ) 20 = 4 := by norm_num [min_def]
  simp only [Plot.plot_cropped_event_segment, hl, hmax, hmin, mne_crop]
  rw [if_pos (by norm_num)]

/-- Claim C6 as amended: the requested window is clamped exactly as lines
130 and 131 of the source write it — the start raised to at least 0, the
end lowered to at most the container's last time point — and whenever the
clamped start does not exceed the clamped end the operation succeeds; the
clamping is one-sided, however, so a start beyond the last time point (or
an end below 0) leaves the clamped start above the clamped end and the
downstream crop fails (see the counterexample). -/
theorem claim6_clamping (raw : Raw) (event_name : String) (s e : ℚ)
    (h : max 0 s ≤ min (lastTime raw) e) :
    Plot.plot_cropped_event_segment raw event_name s e =
      mne_crop raw (max 0 s) (min (lastTime raw) e) ∧
    ∃ cropped, Plot.plot_cropped_event_segment raw event_name s e = Except.ok cropped := by
  refine ⟨rfl, ?_⟩
  simp only [Plot.plot_cropped_event_segment, mne_crop]
  rw [if_neg (not_lt.mpr h), if_neg (not_lt.mpr (le_max_left 0 s)),
    if_neg (not_lt.mpr (min_le_left _ _))]
  exact ⟨_, rfl⟩

/-- Witness for claim C6 (amended): the window -1 s..100 s on the 5-sample
1 Hz container is clamped to 0 s..4 s and the operation succeeds. -/
theorem claim6_clamping_witness :
    (max (0 : ℚ) (-1) ≤ min (lastTime (Raw.mk [[0, 0, 0, 0, 0]] 1)) 100) ∧
    (Plot.plot_cropped_event_segment (Raw.mk [[0, 0, 0, 0, 0]] 1) "Sound Off" (-1) 100 =
      mne_crop (Raw.mk [[0, 0, 0, 0, 0]] 1) (max 0 (-1))
        (min (lastTime (Raw.mk [[0, 0, 0, 0, 0]] 1)) 100) ∧
    ∃ cropped,
      Plot.plot_cropped_event_segment (Raw.mk [[0, 0, 0, 0, 0]] 1) "Sound Off" (-1) 100 =
        Except.ok cropped) :=
  ⟨claim6_window_nonempty,
   claim6_clamping (Raw.mk [[0, 0, 0, 0, 0]] 1) "Sound Off" (-1) 100 claim6_window_nonempty⟩

/-- Claim C7: the notch stage targets exactly the two fixed frequencies 50
and 60 Hz — it is the external notch filter applied with the frequency list
`[50, 60]` and nothing else — and any container it successfully returns has
the same per-channel sample counts and the same sampling rate as the input.
(The attenuation at those frequencies is the external filter's black-box
contract; what the repository fixes is the target list and the shape/rate
preservation.) -/
theorem claim7_notch_targets_and_shape (raw : Raw) :
    Filter.apply_notch_filter raw = mne_notch_filter raw [50, 60] ∧
    (match Filter.apply_notch_filter raw with
      | Except.error _ => True
      | Except.ok out => channelLengths out = channelLengths raw ∧ out.sfreq = raw.sfreq) := by
  refine ⟨rfl, ?_⟩
  simp only [Filter.apply_notch_filter, mne_notch_filter]
  by_cases h : ([(50 : ℚ), 60].any (fun f => decide (raw.sfreq / 2 ≤ f)) = true)
  · simp [h]
  · simp [h, channelLengths, List.map_map, Function.comp]

/-- Claim C9: channel averaging produces one value per time step — each the
arithmetic mean, over the channels of a rectangular container, of the
channel values at that step — and on a single-channel container it returns
that channel's sample sequence unchanged. -/
theorem claim9_average_signal (raw : Raw) (T : Nat)
    (hT : ∀ ch ∈ raw.data, ch.length = T) (hC : 0 < raw.data.length) :
    (Filter.average_signal raw).length = T ∧
    (∀ j, j < T → (Filter.average_signal raw).getD j 0 =
      ((raw.data.map (fun ch => ch.getD j 0)).sum) / (raw.data.length : ℚ)) ∧
    (∀ ch, raw.data = [ch] → Filter.average_signal raw = ch) := by
  have hn : nSamples raw = T := by
    cases hd : raw.data with
    | nil => rw [hd] at hC; exact absurd hC (by simp)
    | cons d rest =>
        have hdm := hT d (by rw [hd]; exact List.mem_cons_self d rest)
        simpa [nSamples, hd] using hdm
  refine ⟨?_, ?_, ?_⟩
  · simp [Filter.average_signal, hn]
  · intro j hj
    simp only [Filter.average_signal]
    exact getD_range_map _ _ j (by rw [hn]; exact hj)
  · intro ch hch
    have hns : nSamples raw = ch.length := by simp [nSamples, hch]
    simp only [Filter.average_signal, hns, hch, List.map_cons, List.map_nil,
      List.sum_cons, List.sum_nil, List.length_cons, List.length_nil, zero_add,
      Nat.cast_one, add_zero, div_one]
    exact range_map_getD ch

/-- Witness for claim C9: the two-channel container with channels
`[1, 3]` and `[3, 5]` is rectangular of width 2 and non-empty, so the
averaging theorem applies to it (its average is `[2, 4]`). -/
theorem claim9_witness :
    (∀ ch ∈ (Raw.mk [[1, 3], [3, 5]] 5000).data, ch.length = 2) ∧
    0 < (Raw.mk [[1, 3], [3, 5]] 5000).data.length ∧
    ((Filter.average_signal (Raw.mk [[1, 3], [3, 5]] 5000)).length = 2 ∧
      (∀ j, j < 2 → (Filter.average_signal (Raw.mk [[1, 3], [3, 5]] 5000)).getD j 0 =
        (((Raw.mk [[1, 3], [3, 5]] 5000).data.map (fun ch => ch.getD j 0)).sum) /
          ((Raw.mk [[1, 3], [3, 5]] 5000).data.length : ℚ)) ∧
      (∀ ch, (Raw.mk [[1, 3], [3, 5]] 5000).data = [ch] →
        Filter.average_signal (Raw.mk [[1, 3], [3, 5]] 5000) = ch)) :=
  ⟨by decide, by decide,
   claim9_average_signal (Raw.mk [[1, 3], [3, 5]] 5000) 2 (by decide) (by decide)⟩

/-- Claim C10: the resample stage's Python default target rate (5000 Hz)
equals the rate fixed at container construction inside `convert_to_fif`, so
on the container built by a successful conversion, resampling with the
default argument returns a container whose sampling rate is unchanged. -/
theorem claim10_default_resample_rate (eeg_data : List ℚ) :
    DataPreprocess.convert_to_fif eeg_data (Except.ok ()) =
      Except.ok (Sum.inl (mne_raw_array [eeg_data] DataPreprocess.convert_sfreq,
        "CSV converted to FIF and saved at eeg_data_raw.fif")) ∧
    Filter.downsampling_default = DataPreprocess.convert_sfreq ∧
    (Filter.apply_downsampling_default
        (mne_raw_array [eeg_data] DataPreprocess.convert_sfreq)).sfreq =
      (mne_raw_array [eeg_data] DataPreprocess.convert_sfreq).sfreq :=
  ⟨rfl, rfl, rfl⟩
